import Mathlib

/-!
# Verification of the attest-fest batch-attestation pipeline

Shallow embedding of `src/eas/components/EasContextProvider.tsx` from the
attest-fest repository: the schema resolver (`createSchemaFromRecord`,
`initSchemaEncoder`), the two submission operations
(`createSafeAttestationsTransaction`, `createAttestations`) and the reset
operation (`resetTransactions`), together with the row-inclusion and
request-building loop they share.

External collaborators (EAS SDK registry/encoder, Safe SDK, csv-parse,
analytics sink) are modelled as environment parameters: each network-bound
call is represented by an outcome supplied in an environment record, and
pure helpers imported from `src/eas/utils/encodeCsv.ts` (which is not among
the available sources) are modelled from the specification, as marked on
their doc comments.
-/

namespace AttestFest

/-- One typed schema field, as in `src/eas/types/schema-field.type.ts`:
`{ name: string, type: SchemaFieldTypeName }`. The type name is kept as a
string; which names are recognized (`isSchemaFieldTypeName`) is a parameter
of the embedding. -/
structure SchemaField where
  name : String
  type : String
deriving Repr, DecidableEq

/-- The fetched on-chain schema record: the raw comma-separated schema
string and the `revocable` flag (the two components the provider reads). -/
structure SchemaRecord where
  schema : String
  revocable : Bool
deriving Repr, DecidableEq

/-- The EAS SDK `SchemaEncoder`, abstracted to the raw schema string it was
constructed from (the provider only constructs it and passes it on). -/
structure SchemaEncoder where
  schema : String
deriving Repr, DecidableEq

/-- One attestation request, lines 180-189 of EasContextProvider.tsx:
`{ recipient, expirationTime: 0n, revocable, refUID, data, value: 0n }`. -/
structure AttestationRequestData where
  recipient : String
  expirationTime : Nat
  revocable : Bool
  refUID : String
  data : String
  value : Nat
deriving Repr, DecidableEq

/-- A multi-attestation request `{ schema, data }` as assembled for
`multiAttest` in both submission modes. -/
structure MultiAttestRequest where
  schema : String
  data : List AttestationRequestData
deriving Repr, DecidableEq

/-- The `safeTransactionState` values written by the multisig path:
`{status:"creating"} | {status:"signing",txHash} | {status:"created",txHash,
signature} | {status:"error",error}`. -/
inductive SafeTxState where
  | creating
  | signing (txHash : String)
  | created (txHash : String) (signature : String)
  | error (e : String)
deriving Repr, DecidableEq

/-- The `transactionStatus` values written by the direct path. -/
inductive TxStatus where
  | creating
  | attesting
  | wait_uid
  | success
  | error
deriving Repr, DecidableEq

/-- The provider's React state object (`EasContext` minus the three bound
functions), with `undefined` rendered as `none`. Errors are kept as their
message strings. -/
structure EasState where
  schemaUid : String
  schemaRecord : Option SchemaRecord := none
  schemaRecordError : Option String := none
  schemaError : Option String := none
  schemaEncoder : Option SchemaEncoder := none
  schemaEncoderError : Option String := none
  schema : Option (List SchemaField) := none
  safeTransactionState : Option SafeTxState := none
  transaction : Option String := none
  transactionError : Option String := none
  transactionStatus : Option TxStatus := none
  attestationUids : Option (List String) := none
deriving Repr, DecidableEq

/-- The 32-byte zero hash literal used for `refUID` when refUID mode is
off (line 186). -/
def zeroHash : String :=
  "0x0000000000000000000000000000000000000000000000000000000000000000"

/-! ## Schema resolver (`createSchemaFromRecord`, lines 96-119) -/

/-- `s.split(",")`: split on every comma, keeping empty segments, done at
character level. -/
def splitOnComma (s : String) : List String :=
  (s.data.splitOn ',').map (fun cs => String.mk cs)

/-- `s.split(" ")`: split on every single space, keeping empty segments,
done at character level. -/
def splitOnSpace (s : String) : List String :=
  (s.data.splitOn ' ').map (fun cs => String.mk cs)

/-- `s.trim()`: strip leading and trailing whitespace, done at character
level. -/
def trimString (s : String) : String :=
  String.mk (((s.data.dropWhile Char.isWhitespace).reverse.dropWhile
    Char.isWhitespace).reverse)

/-- `field.trim().split(" ")` destructured as `[type, name]`: the segment is
trimmed and split on single spaces; the first piece is the type, the second
the name (missing pieces render as `""`, like `undefined` coerced). -/
def parseFieldSegment (field : String) : String × String :=
  let pieces := splitOnSpace (trimString field)
  (pieces.headD (""), (pieces.drop 1).headD (""))

/-- The fields accumulated by the `forEach` push loop: segments whose parsed
type name is recognized become `{name, type}` entries, in declaration
order; unrecognized segments are dropped (they only record an error). -/
def validParsedFields (isValid : String → Bool) (schemaStr : String) :
    List SchemaField :=
  (splitOnComma schemaStr).filterMap fun field =>
    let p := parseFieldSegment field
    if isValid p.1 then some ⟨p.2, p.1⟩ else none

/-- The type names of the segments that fail `isSchemaFieldTypeName`; each
one triggers `setState` recording `Invalid type name: <type>`, so the last
of them is what remains in `schemaError`. -/
def invalidTypeNames (isValid : String → Bool) (schemaStr : String) :
    List String :=
  (splitOnComma schemaStr).filterMap fun field =>
    let t := (parseFieldSegment field).1
    if isValid t then none else some t

/-- The loop body of lines 101-110 as a fold step over one schema segment:
push the field when the type is recognized, otherwise record the error. -/
def schemaFieldStep (isValid : String → Bool)
    (acc : List SchemaField × Option String) (field : String) :
    List SchemaField × Option String :=
  let p := parseFieldSegment field
  if isValid p.1 then (acc.1 ++ [⟨p.2, p.1⟩], acc.2)
  else (acc.1, some ("Invalid type name: " ++ p.1))

/-- `createSchemaFromRecord` (lines 96-119): no-op without a schema record;
otherwise split the raw schema string on `","`, run the push loop, append
`{refUID, bytes32}` when refUID mode is on, always append
`{recipient, address}`, and store the list in `state.schema` (recording the
last invalid-type error, if any, in `state.schemaError`).
`isValid` stands for the imported `isSchemaFieldTypeName`. -/
def createSchemaFromRecord (isValid : String → Bool) (includeRefUid : Bool)
    (s : EasState) : EasState :=
  match s.schemaRecord with
  | none => s
  | some rec =>
    let r := (splitOnComma rec.schema).foldl (schemaFieldStep isValid)
      ([], s.schemaError)
    let withRef := if includeRefUid then r.1 ++ [⟨"refUID", "bytes32"⟩] else r.1
    let fields := withRef ++ [⟨"recipient", "address"⟩]
    { s with schema := some fields, schemaError := r.2 }

/-- `initSchemaEncoder` (lines 121-133): no-op when there is no schema
record or its schema string is empty (falsy); otherwise attempt the external
`new SchemaEncoder(schema)` — modelled by `ctor` — storing the encoder on
success and only `schemaEncoderError` on failure (a previously stored
encoder is left in place). -/
def initSchemaEncoder (ctor : String → Option SchemaEncoder)
    (s : EasState) : EasState :=
  match s.schemaRecord with
  | none => s
  | some rec =>
    if rec.schema = "" then s
    else
      match ctor rec.schema with
      | some enc => { s with schemaEncoder := some enc }
      | none =>
        let msg := "Unable to create schema encoder for schema: " ++ rec.schema
        { s with schemaEncoderError := some msg }

/-! ## Row inclusion and request building (lines 170-192) -/

/-- Modelled from the spec: `shouldIncludeRow` is imported from
`src/eas/utils/encodeCsv.ts`, which is not among the available sources.
Spec 4.3: "a row is excluded from the batch if it fails a well-formedness
check against the schema (e.g., wrong cell count, or the designated
recipient cell is empty/unresolvable)" and 8: "Rows whose cell count does
not match the expected field count are excluded". -/
def shouldIncludeRow (row : List String) (schema : List SchemaField) : Bool :=
  row.length == schema.length && !(row.getLastD ("") == "")

/-- Modelled from the spec: `processRecipient` is imported from
`src/eas/utils/encodeCsv.ts`, which is not among the available sources.
Spec 6: "Recipient resolution service: resolves a name or address string to
a canonical on-chain address". The resolution service itself is external;
it is carried as the total function `resolve` in the environment. -/
def processRecipient (resolve : String → String) (cell : String) : String :=
  resolve cell

/-- The request object built for one included row (lines 180-189):
`recipient` resolves `row[row.length - 1]`, `expirationTime` and `value`
are zero, `revocable` copies the record flag, and `refUID` is
`row[row.length - 2]` when refUID mode is on and the zero hash otherwise.
`encoded` is the result of `encodeRow` for this row. -/
def mkRequestData (resolve : String → String) (revocable : Bool)
    (includeRefUid : Bool) (encoded : String) (row : List String) :
    AttestationRequestData :=
  { recipient := processRecipient resolve (row.getD (row.length - 1) ""),
    expirationTime := 0,
    revocable := revocable,
    refUID := if includeRefUid then row.getD (row.length - 2) "" else zeroHash,
    data := encoded,
    value := 0 }

/-- The `for (const row of parsedCsv)` loop (lines 173-192): skip rows that
fail `shouldIncludeRow`, and push one `AttestationRequestData` per included
row, in row order. `encode` stands for the imported `encodeRow` applied to
the resolved schema and encoder (modelled from the spec as a total binary
encoding, spec 4.3). -/
def buildRequestData (resolve : String → String) (encode : List String → String)
    (revocable : Bool) (includeRefUid : Bool) (schema : List SchemaField) :
    List (List String) → List AttestationRequestData
  | [] => []
  | row :: rest =>
    if shouldIncludeRow row schema then
      mkRequestData resolve revocable includeRefUid (encode row) row ::
        buildRequestData resolve encode revocable includeRefUid schema rest
    else
      buildRequestData resolve encode revocable includeRefUid schema rest

/-! ## Submission environments and analytics -/

/-- One analytics event, as passed to `plausible.trackEvent` (lines 244-251
and 317-324): `{ chain, wallet, schema, attestationCount }`. -/
structure AnalyticsEvent where
  chain : Option Nat
  wallet : String
  schema : String
  attestationCount : Nat
deriving Repr, DecidableEq

/-- Modelled from the spec: the analytics sink (`plausible` from
`src/main.tsx`, not among the available sources) is a "fire-and-forget
event emission ... no response contract observed" (spec 6), so whether the
emission reaches the sink is invisible to the caller. The result is the
list of events actually delivered. -/
def trackEvent (emissionSucceeds : Bool) (e : AnalyticsEvent) :
    List AnalyticsEvent :=
  if emissionSucceeds then [e] else []

/-- JS truthiness of `chain?.id`: `undefined` and `0` are falsy. -/
def chainIdTruthy : Option Nat → Bool
  | none => false
  | some n => n != 0

/-- `state.schemaRecord?.revocable` as a boolean: `false` when the record
is absent. -/
def revocableFlag (s : EasState) : Bool :=
  match s.schemaRecord with
  | some r => r.revocable
  | none => false

/-- Environment of one `createSafeAttestationsTransaction` run: presence of
the hook-provided collaborators, the global CSV (already split into rows by
the external `csv-parse` call of `parseCsv`), the refUID toggle, the
external recipient-resolution and row-encoding services, the outcomes of
the awaited Safe SDK calls, and whether the analytics emission reaches the
sink. -/
structure SafeEnv where
  hasRpcSigner : Bool := true
  hasSafeAddress : Bool := true
  hasSafe : Bool := true
  hasSafeApiKit : Bool := true
  hasEasConfig : Bool := true
  hasPublicClient : Bool := true
  chainId : Option Nat := some 1
  rows : List (List String) := []
  includeRefUid : Bool := false
  resolve : String → String := id
  encode : List String → List SchemaField → SchemaEncoder → String :=
    fun _ _ _ => ""
  txHash : String := "0xhash"
  signatureData : String := "0xsig"
  createTxFails : Bool := false
  signFails : Bool := false
  proposeFails : Bool := false
  emissionSucceeds : Bool := true

/-- Result of one `createSafeAttestationsTransaction` run: the final React
state, the multi-attest request actually proposed to the Safe service
(`none` when nothing was proposed), and the analytics events delivered. -/
structure SafeRunOut where
  state : EasState
  proposal : Option MultiAttestRequest
  analytics : List AnalyticsEvent
deriving DecidableEq

/-- The message of the error thrown by the precondition guard of
`createSafeAttestationsTransaction` (line 157). -/
def safePrecondMsg : String := "Missing signer, safe, safeApiKit or ethersAdapter"

/-- The guard of lines 145-156: every collaborator present, schema encoder
and resolved schema set, and `state.schemaRecord?.revocable` truthy. -/
def safePreconditionsMet (env : SafeEnv) (s : EasState) : Bool :=
  env.hasRpcSigner && env.hasSafeAddress && env.hasSafe && env.hasSafeApiKit &&
  s.schemaEncoder.isSome && s.schema.isSome && env.hasEasConfig &&
  env.hasPublicClient && chainIdTruthy env.chainId && revocableFlag s

/-- `createSafeAttestationsTransaction` (lines 143-271). The guard failing,
or any awaited Safe SDK call failing, lands in the `catch` block, which
records `{status:"error",error}` on `safeTransactionState`; otherwise the
run writes `creating`, builds the request list row by row, creates and
hashes the Safe transaction, writes `signing`, signs, proposes the
transaction to the Safe service, emits the analytics event, and writes
`created`. -/
def createSafeAttestationsTransaction (env : SafeEnv) (s : EasState) :
    SafeRunOut :=
  let fail : String → SafeRunOut := fun msg =>
    ⟨{ s with safeTransactionState := some (.error msg) }, none, []⟩
  if safePreconditionsMet env s then
    match s.schema, s.schemaRecord, s.schemaEncoder with
    | some schema, some rec, some enc =>
      let requestData := buildRequestData env.resolve
        (fun row => env.encode row schema enc) rec.revocable
        env.includeRefUid schema env.rows
      if env.createTxFails then fail ("createTransaction failed")
      else if env.signFails then fail ("Signing transaction failed")
      else if env.proposeFails then fail ("proposeTransaction failed")
      else
        let delivered := trackEvent env.emissionSucceeds
          ⟨env.chainId, "safe", s.schemaUid, requestData.length⟩
        let final := { s with
          safeTransactionState := some (.created env.txHash env.signatureData) }
        ⟨final, some ⟨s.schemaUid, requestData⟩, delivered⟩
    | _, _, _ => fail safePrecondMsg
  else fail safePrecondMsg

/-- Environment of one `createAttestations` run (direct mode): presence of
the collaborators, the parsed CSV rows, the external services, the outcomes
of the awaited EAS SDK calls, and the analytics emission outcome. -/
structure DirectEnv where
  hasEasConfig : Bool := true
  hasRpcSigner : Bool := true
  hasPublicClient : Bool := true
  chainId : Option Nat := some 1
  rows : List (List String) := []
  includeRefUid : Bool := false
  resolve : String → String := id
  encode : List String → List SchemaField → SchemaEncoder → String :=
    fun _ _ _ => ""
  buildRequestFails : Bool := false
  multiAttestFails : Bool := false
  waitFails : Bool := false
  emissionSucceeds : Bool := true
  txHandle : String := "0xtx"
  uids : List String := []

/-- Result of one `createAttestations` run: final state, the multi-attest
request submitted through `eas.multiAttest` (`none` when never submitted),
the delivered analytics events, and the ordered list of values written to
`transactionStatus` during the run. -/
structure DirectRunOut where
  state : EasState
  submitted : Option MultiAttestRequest
  analytics : List AnalyticsEvent
  trace : List TxStatus
deriving DecidableEq

/-- The message of the error thrown by the precondition guard of
`createAttestations` (lines 284-286). -/
def directPrecondMsg : String :=
  "Missing schemaEncoder, schema, easConfig, rpcSigner or publicClient"

/-- The guard of lines 275-283. -/
def directPreconditionsMet (env : DirectEnv) (s : EasState) : Bool :=
  s.schemaEncoder.isSome && s.schema.isSome && env.hasEasConfig &&
  env.hasRpcSigner && env.hasPublicClient && chainIdTruthy env.chainId &&
  revocableFlag s

/-- Modelled from the spec: `createMultiAttestRequest` is imported from
`src/eas/utils/encodeCsv.ts`, which is not among the available sources.
Spec 4.4: direct mode "wraps the sequence into one MultiAttestRequest",
consuming the same encoded `AttestationRequestData` sequence as the
multisig path (spec 4.3/4.4), so it reuses the row loop embedding. -/
def createMultiAttestRequest (resolve : String → String)
    (encode : List String → String) (revocable : Bool) (includeRefUid : Bool)
    (schemaUid : String) (schema : List SchemaField)
    (rows : List (List String)) : MultiAttestRequest :=
  ⟨schemaUid, buildRequestData resolve encode revocable includeRefUid schema rows⟩

/-- `createAttestations` (lines 273-353). The guard failing or an awaited
call rejecting lands in the `catch`, which writes `transactionStatus:
"error"` and the error; otherwise the run writes `creating`, builds the
request, writes `attesting`, submits through `eas.multiAttest`, emits the
analytics event, writes `wait_uid` with the transaction handle, awaits the
receipt, and writes `success` with the attestation UIDs. -/
def createAttestations (env : DirectEnv) (s : EasState) : DirectRunOut :=
  let fail : String → List TxStatus → EasState → DirectRunOut :=
    fun msg trace st =>
      ⟨{ st with transactionStatus := some .error, transactionError := some msg },
       none, [], trace ++ [TxStatus.error]⟩
  if directPreconditionsMet env s then
    match s.schema, s.schemaRecord, s.schemaEncoder with
    | some schema, some rec, some enc =>
      if env.buildRequestFails then
        fail ("createMultiAttestRequest failed") [TxStatus.creating] s
      else
        let request := createMultiAttestRequest env.resolve
          (fun row => env.encode row schema enc) rec.revocable
          env.includeRefUid s.schemaUid schema env.rows
        if env.multiAttestFails then
          fail ("multiAttest failed") [TxStatus.creating, TxStatus.attesting] s
        else
          let delivered := trackEvent env.emissionSucceeds
            ⟨env.chainId, "safe", s.schemaUid, request.data.length⟩
          if env.waitFails then
            let st := { s with transaction := some env.txHandle }
            let out := fail ("wait failed")
              [TxStatus.creating, TxStatus.attesting, TxStatus.wait_uid] st
            ⟨out.state, some request, delivered, out.trace⟩
          else
            let final := { s with
              transactionStatus := some .success,
              transaction := some env.txHandle,
              attestationUids := some env.uids }
            ⟨final, some request, delivered,
             [TxStatus.creating, TxStatus.attesting, TxStatus.wait_uid,
              TxStatus.success]⟩
    | _, _, _ => fail directPrecondMsg [] s
  else fail directPrecondMsg [] s

/-! ## Direct-mode status-transition relation (spec 4.4) -/

/-- The transitions the spec allows for the direct path: the forward chain
`creating → attesting → wait_uid → success` plus `→ error` from any
in-flight stage. -/
def directStepOk (a b : TxStatus) : Bool :=
  match a, b with
  | .creating, .attesting => true
  | .attesting, .wait_uid => true
  | .wait_uid, .success => true
  | .creating, .error => true
  | .attesting, .error => true
  | .wait_uid, .error => true
  | _, _ => false

/-- Every consecutive pair of the status-write list is an allowed
transition. -/
def chainStepsOk : List TxStatus → Bool
  | a :: b :: rest => directStepOk a b && chainStepsOk (b :: rest)
  | _ => true

/-- A valid direct-mode status trace: it starts at `creating` (or goes
straight to `error`, when the run fails before its first stage) and every
step follows `directStepOk`. -/
def traceOk (l : List TxStatus) : Bool :=
  (match l.head? with
   | none => true
   | some t => t == TxStatus.creating || t == TxStatus.error) && chainStepsOk l

/-! ## Concrete instances for witnesses and counterexamples -/

/-- Modelled from the spec: a concrete recognizer standing in for
`isSchemaFieldTypeName` (`src/eas/utils/isSchemaFieldTypeName.ts`, not
among the available sources), accepting a sample of the
"supported-primitive-type-names" of spec 3. -/
def sampleTypeNames : List String :=
  ["uint256", "string", "address", "bytes32", "bool"]

/-- Membership in `sampleTypeNames`, used wherever a witness needs a
concrete `isSchemaFieldTypeName`. -/
def sampleIsValid (t : String) : Bool := sampleTypeNames.contains t

/-- The resolved field list of the example schema of spec 8, with a refUID
column: one data field, the refUID field, the trailing recipient field. -/
def builderSchema : List SchemaField :=
  [⟨"context", "string"⟩, ⟨"refUID", "bytes32"⟩, ⟨"recipient", "address"⟩]

/-- The external `SchemaEncoder` constructor as exercised by the
stale-encoder scenario: it accepts the first fetched schema string and
rejects the re-fetched one (malformed-schema construction failure). -/
def scenarioCtor (str : String) : Option SchemaEncoder :=
  if str = "uint256 value" then some ⟨str⟩ else none

/-- A state the provider's own effects can reach: a first schema record
whose encoder is constructed and stored, then a re-fetched record whose
encoder construction fails (recording `schemaEncoderError` and leaving the
stale encoder in place) and whose parse records an invalid-type
`schemaError` while still storing the remaining valid fields. -/
def scenarioState : EasState :=
  let s0 : EasState :=
    { schemaUid := "0xuid", schemaRecord := some ⟨"uint256 value", true⟩ }
  let s1 := initSchemaEncoder scenarioCtor s0
  let s2 := { s1 with schemaRecord := some ⟨"uint256 value, badtype x", true⟩ }
  let s3 := initSchemaEncoder scenarioCtor s2
  createSchemaFromRecord sampleIsValid false s3

/-- A CSV row shaped for `builderSchema`: one data cell, a refUID cell,
and a recipient cell. -/
def exampleRow : List String := ["ctx", "0xREF", "0xRECIP"]

/-- The request the loop builds for `exampleRow` under refUID mode. -/
def exampleReq : AttestationRequestData :=
  mkRequestData (fun c => c) true true ("enc") exampleRow

/-- A state holding the fetched two-field example schema record of spec 8,
for the schema-resolution witness. -/
def schemaNoteState : EasState :=
  { schemaUid := "0xuid",
    schemaRecord := some ⟨"uint256 value, string note", true⟩ }

/-- A fresh provider state (only the schema UID set), for the
precondition-failure witnesses. -/
def freshState : EasState := { schemaUid := "0xuid" }

/-- A fully-loaded provider state for happy-path witnesses: fetched
revocable schema record, resolved two-field list, stored encoder. -/
def loadedState : EasState :=
  { schemaUid := "0xuid",
    schemaRecord := some ⟨"uint256 value", true⟩,
    schema := some [⟨"value", "uint256"⟩, ⟨"recipient", "address"⟩],
    schemaEncoder := some ⟨"uint256 value"⟩ }

/-- A one-row environment for the multisig-path witnesses. -/
def exampleSafeEnv : SafeEnv := { rows := [["42", "0xabc"]] }

/-- A one-row environment for the direct-path witnesses. -/
def exampleDirectEnv : DirectEnv := { rows := [["42", "0xabc"]] }

/-- The proposal the multisig run produces from `exampleSafeEnv` on
`loadedState`. -/
def exampleProposal : MultiAttestRequest :=
  ⟨"0xuid", [⟨"0xabc", 0, true, zeroHash, "", 0⟩]⟩

/-- The single request inside `exampleProposal`. -/
def exampleProposalReq : AttestationRequestData :=
  ⟨"0xabc", 0, true, zeroHash, "", 0⟩

/-- A provider state whose fetched schema record is explicitly
non-revocable, for the revocability witness. -/
def nonRevocableState : EasState :=
  { schemaUid := "0xuid",
    schemaRecord := some ⟨"uint256 value", false⟩,
    schema := some [⟨"value", "uint256"⟩, ⟨"recipient", "address"⟩],
    schemaEncoder := some ⟨"uint256 value"⟩ }

/-- `resetTransactions` (lines 355-364): clear the five transaction-related
fields back to `undefined`, touching nothing else. -/
def resetTransactions (s : EasState) : EasState :=
  { s with
    safeTransactionState := none,
    transaction := none,
    transactionError := none,
    transactionStatus := none,
    attestationUids := none }

/-! ## Helper lemmas -/

/-- The push loop over schema segments accumulates exactly the
recognized-type fields, in order, onto whatever was already accumulated. -/
theorem foldl_schemaFieldStep_fst (isValid : String → Bool)
    (l : List String) (acc : List SchemaField) (e : Option String) :
    (l.foldl (schemaFieldStep isValid) (acc, e)).1
      = acc ++ l.filterMap (fun field =>
          let p := parseFieldSegment field
          if isValid p.1 then some ⟨p.2, p.1⟩ else none) := by
  induction l generalizing acc e with
  | nil => simp
  | cons hd tl ih =>
    by_cases h : isValid (parseFieldSegment hd).1 <;>
      simp [schemaFieldStep, h, ih]

/-- The row loop equals filtering by the inclusion check and mapping to the
per-row request, preserving row order. -/
theorem buildRequestData_eq_filter_map (resolve : String → String)
    (encode : List String → String) (revocable includeRefUid : Bool)
    (schema : List SchemaField) (rows : List (List String)) :
    buildRequestData resolve encode revocable includeRefUid schema rows
      = (rows.filter (fun r => shouldIncludeRow r schema)).map
          (fun row => mkRequestData resolve revocable includeRefUid (encode row) row) := by
  induction rows with
  | nil => rfl
  | cons hd tl ih =>
    by_cases h : shouldIncludeRow hd schema
    · simp [buildRequestData, List.filter_cons, h, ih]
    · simp [buildRequestData, List.filter_cons, h, ih]

/-- Every request in the assembled batch comes from an included row. -/
theorem mem_buildRequestData {resolve : String → String}
    {encode : List String → String} {revocable includeRefUid : Bool}
    {schema : List SchemaField} {rows : List (List String)}
    {req : AttestationRequestData}
    (h : req ∈ buildRequestData resolve encode revocable includeRefUid schema rows) :
    ∃ row, row ∈ rows ∧ shouldIncludeRow row schema = true ∧
      req = mkRequestData resolve revocable includeRefUid (encode row) row := by
  rw [buildRequestData_eq_filter_map] at h
  obtain ⟨row, hrow, hmk⟩ := List.mem_map.mp h
  obtain ⟨hmem, hinc⟩ := List.mem_filter.mp hrow
  exact ⟨row, hmem, hinc, hmk.symm⟩

/-! ## Claim theorems -/

/-- Claim C8 (confirmed): the reset operation, applied in any state, clears
every transaction-related field (multisig transaction state, direct
transaction handle, transaction error, transaction status, attestation
UIDs) to its unset value and leaves every other field — schema record,
resolved field list, schema encoder, and their error fields — unchanged. -/
theorem reset_clears_only_transaction_fields (s : EasState) :
    (resetTransactions s).safeTransactionState = none ∧
    (resetTransactions s).transaction = none ∧
    (resetTransactions s).transactionError = none ∧
    (resetTransactions s).transactionStatus = none ∧
    (resetTransactions s).attestationUids = none ∧
    (resetTransactions s).schemaUid = s.schemaUid ∧
    (resetTransactions s).schemaRecord = s.schemaRecord ∧
    (resetTransactions s).schemaRecordError = s.schemaRecordError ∧
    (resetTransactions s).schemaError = s.schemaError ∧
    (resetTransactions s).schemaEncoder = s.schemaEncoder ∧
    (resetTransactions s).schemaEncoderError = s.schemaEncoderError ∧
    (resetTransactions s).schema = s.schema :=
  ⟨rfl, rfl, rfl, rfl, rfl, rfl, rfl, rfl, rfl, rfl, rfl, rfl⟩

/-- Claim C2 (confirmed): a batch built from N parsed rows of which K pass
the well-formedness check contains exactly K `AttestationRequestData`
entries, in row order, and no entry is created for any excluded row: the
row loop equals filter-then-map, and its length is the count of rows
passing the check. -/
theorem batch_is_exactly_included_rows (resolve : String → String)
    (encode : List String → String) (revocable includeRefUid : Bool)
    (schema : List SchemaField) (rows : List (List String)) :
    buildRequestData resolve encode revocable includeRefUid schema rows
      = (rows.filter (fun r => shouldIncludeRow r schema)).map
          (fun row => mkRequestData resolve revocable includeRefUid (encode row) row) ∧
    (buildRequestData resolve encode revocable includeRefUid schema rows).length
      = rows.countP (fun r => shouldIncludeRow r schema) := by
  refine ⟨buildRequestData_eq_filter_map resolve encode revocable includeRefUid
    schema rows, ?_⟩
  rw [buildRequestData_eq_filter_map, List.length_map, ← List.countP_eq_length_filter]

/-- Claim C1 (counterexample): with a reference UID column present, the
recipient is resolved from the LAST cell of the row, not the second-to-last
one as claimed; the second-to-last cell becomes the refUID instead. -/
theorem recipient_cell_counterexample :
    (buildRequestData (fun c => c) (fun _ => "enc") true true builderSchema
        [["ctx", "0xREF", "0xRECIP"]]).map AttestationRequestData.recipient
      = ["0xRECIP"] ∧
    (buildRequestData (fun c => c) (fun _ => "enc") true true builderSchema
        [["ctx", "0xREF", "0xRECIP"]]).map AttestationRequestData.refUID
      = ["0xREF"] ∧
    ("0xRECIP" : String) ≠ "0xREF" := by decide

/-- Claim C1 (amended): for every CSV row included in a batch, the cell
resolved to the canonical recipient address is the last cell of the row,
whether or not a reference UID column is present; when the reference UID
column is present the second-to-last cell supplies the refUID, and
otherwise the refUID is the zero hash. -/
theorem recipient_resolved_from_last_cell (resolve : String → String)
    (encode : List String → String) (revocable includeRefUid : Bool)
    (schema : List SchemaField) (rows : List (List String))
    (req : AttestationRequestData)
    (hreq : req ∈ buildRequestData resolve encode revocable includeRefUid schema rows) :
    ∃ row, row ∈ rows ∧ shouldIncludeRow row schema = true ∧
      req.recipient = resolve (row.getD (row.length - 1) "") ∧
      (includeRefUid = true → req.refUID = row.getD (row.length - 2) "") ∧
      (includeRefUid = false → req.refUID = zeroHash) := by
  obtain ⟨row, hmem, hinc, hmk⟩ := mem_buildRequestData hreq
  subst hmk
  refine ⟨row, hmem, hinc, rfl, ?_, ?_⟩ <;> intro h <;>
    simp [mkRequestData, h]

/-- Concrete instance of the amended claim C1: the builder-schema row with
a refUID column, resolved by the identity resolution. -/
theorem recipient_resolved_from_last_cell_witness :
    ∃ row, row ∈ [exampleRow] ∧
      shouldIncludeRow row builderSchema = true ∧
      exampleReq.recipient = (fun c => c) (row.getD (row.length - 1) "") ∧
      (true = true → exampleReq.refUID = row.getD (row.length - 2) "") ∧
      (true = false → exampleReq.refUID = zeroHash) :=
  recipient_resolved_from_last_cell (fun c => c) (fun _ => "enc") true true
    builderSchema [exampleRow] exampleReq (by decide)

/-- Claim C3 (confirmed): for every fetched schema record with at least one
declared field, the resolved field list is exactly the recognized parsed
fields in declared order (unrecognized-type fields omitted), then a
`{refUID, bytes32}` field iff refUID mode is enabled, then the final
`{recipient, address}` field; its length is (valid parsed fields) +
(1 if refUID mode) + 1. -/
theorem resolved_schema_field_list (isValid : String → Bool)
    (includeRefUid : Bool) (s : EasState) (rec : SchemaRecord)
    (hrec : s.schemaRecord = some rec)
    (hfields : splitOnComma rec.schema ≠ []) :
    (createSchemaFromRecord isValid includeRefUid s).schema
      = some (validParsedFields isValid rec.schema
          ++ (if includeRefUid then [(⟨"refUID", "bytes32"⟩ : SchemaField)] else [])
          ++ [(⟨"recipient", "address"⟩ : SchemaField)]) ∧
    ∀ fields,
      (createSchemaFromRecord isValid includeRefUid s).schema = some fields →
      fields.length = (validParsedFields isValid rec.schema).length
        + (if includeRefUid then 1 else 0) + 1 := by
  have hmain : (createSchemaFromRecord isValid includeRefUid s).schema
      = some (validParsedFields isValid rec.schema
          ++ (if includeRefUid then [(⟨"refUID", "bytes32"⟩ : SchemaField)] else [])
          ++ [(⟨"recipient", "address"⟩ : SchemaField)]) := by
    cases includeRefUid <;>
      simp [createSchemaFromRecord, hrec, foldl_schemaFieldStep_fst,
        validParsedFields]
  refine ⟨hmain, ?_⟩
  intro fields hf
  rw [hmain] at hf
  injection hf with hf
  subst hf
  cases includeRefUid <;> simp [List.length_append]

/-- Concrete instance of claim C3: the example schema string of spec 8 with
refUID mode on, under the sample type-name recognizer. -/
theorem resolved_schema_field_list_witness :
    (createSchemaFromRecord sampleIsValid true schemaNoteState).schema
      = some (validParsedFields sampleIsValid ("uint256 value, string note")
          ++ (if true then [(⟨"refUID", "bytes32"⟩ : SchemaField)] else [])
          ++ [(⟨"recipient", "address"⟩ : SchemaField)]) ∧
    ∀ fields,
      (createSchemaFromRecord sampleIsValid true schemaNoteState).schema
        = some fields →
      fields.length
        = (validParsedFields sampleIsValid ("uint256 value, string note")).length
          + (if true then 1 else 0) + 1 :=
  resolved_schema_field_list sampleIsValid true schemaNoteState
    ⟨"uint256 value, string note", true⟩ rfl (by decide)

/-- Claim C4 (counterexample): invoking the multisig submission with unmet
preconditions does not leave the transaction state field as it was: on a
fresh state it moves `safeTransactionState` from `none` to the error state
carrying the precondition error. -/
theorem precondition_failure_changes_state :
    (createSafeAttestationsTransaction {} freshState).state.safeTransactionState
      ≠ freshState.safeTransactionState ∧
    (createSafeAttestationsTransaction {} freshState).state.safeTransactionState
      = some (SafeTxState.error safePrecondMsg) := by decide

/-- Claim C4 (amended): when any precondition of the multisig submission is
unmet, the operation fails immediately with the descriptive precondition
error, proposes nothing, performs no pipeline step, and changes no state
except setting the transaction state field to the error state carrying
that precondition error. -/
theorem safe_precondition_failure_frame (env : SafeEnv) (s : EasState)
    (h : safePreconditionsMet env s = false) :
    createSafeAttestationsTransaction env s
      = ⟨{ s with safeTransactionState := some (SafeTxState.error safePrecondMsg) },
         none, []⟩ := by
  simp [createSafeAttestationsTransaction, h]

/-- Concrete instance of the amended claim C4: the default environment on
the fresh state (no encoder, no schema) fails the guard and only the
transaction state field changes, to the precondition error. -/
theorem safe_precondition_failure_frame_witness :
    safePreconditionsMet {} freshState = false ∧
    createSafeAttestationsTransaction {} freshState
      = ⟨{ freshState with
           safeTransactionState := some (SafeTxState.error safePrecondMsg) },
         none, []⟩ :=
  ⟨by decide, safe_precondition_failure_frame {} freshState (by decide)⟩

/-- Claim C6 (counterexample): a reachable state with both an
`InvalidSchemaFieldType` error and an encoder-construction error recorded
(reached by re-fetching a bad schema after a good one, which leaves a stale
encoder in place) still passes both submission guards: both operations
build a one-entry attestation batch instead of halting. -/
theorem schema_error_does_not_halt_submission :
    scenarioState.schemaError = some ("Invalid type name: badtype") ∧
    scenarioState.schemaEncoderError
      = some ("Unable to create schema encoder for schema: uint256 value, badtype x") ∧
    ((createSafeAttestationsTransaction exampleSafeEnv
        scenarioState).proposal.map (fun p => p.data.length)) = some 1 ∧
    ((createAttestations exampleDirectEnv
        scenarioState).submitted.map (fun p => p.data.length)) = some 1 := by
  decide

/-- Claim C6 (amended): the halt is enforced by state absence, not by the
recorded error: whenever no schema encoder is stored (as after an encoder
construction failure with no previously stored encoder), both submission
operations fail with the precondition error before building any
attestation request; a recorded `schemaError`/`schemaEncoderError` alone
does not block submission when an encoder and field list are present. -/
theorem missing_encoder_halts_submissions (env : SafeEnv) (denv : DirectEnv)
    (s : EasState) (h : s.schema = none ∨ s.schemaEncoder = none) :
    (createSafeAttestationsTransaction env s).proposal = none ∧
    (createSafeAttestationsTransaction env s).state.safeTransactionState
      = some (SafeTxState.error safePrecondMsg) ∧
    (createAttestations denv s).submitted = none ∧
    (createAttestations denv s).state.transactionStatus = some TxStatus.error ∧
    (createAttestations denv s).state.transactionError
      = some directPrecondMsg := by
  have h1 : safePreconditionsMet env s = false := by
    rcases h with h | h <;> simp [safePreconditionsMet, h]
  have h2 : directPreconditionsMet denv s = false := by
    rcases h with h | h <;> simp [directPreconditionsMet, h]
  simp [createSafeAttestationsTransaction, createAttestations, h1, h2]

/-- Concrete instance of the amended claim C6: the fresh state stores no
encoder (and no field list), and both submissions halt with the
precondition error. -/
theorem missing_encoder_halts_submissions_witness :
    (createSafeAttestationsTransaction exampleSafeEnv freshState).proposal
      = none ∧
    (createSafeAttestationsTransaction exampleSafeEnv
        freshState).state.safeTransactionState
      = some (SafeTxState.error safePrecondMsg) ∧
    (createAttestations exampleDirectEnv freshState).submitted = none ∧
    (createAttestations exampleDirectEnv freshState).state.transactionStatus
      = some TxStatus.error ∧
    (createAttestations exampleDirectEnv freshState).state.transactionError
      = some directPrecondMsg :=
  missing_encoder_halts_submissions exampleSafeEnv exampleDirectEnv
    freshState (Or.inr rfl)

/-- Claim C7 (confirmed): every `AttestationRequestData` in a proposed
batch has `expirationTime = 0`, `value = 0`, `revocable` equal to the
fetched schema record's revocable flag, and `refUID` equal to the 32-byte
zero hash whenever refUID mode is disabled. -/
theorem request_constant_fields (env : SafeEnv) (s : EasState)
    (rec : SchemaRecord) (hrec : s.schemaRecord = some rec)
    (p : MultiAttestRequest)
    (hp : (createSafeAttestationsTransaction env s).proposal = some p)
    (req : AttestationRequestData) (hreq : req ∈ p.data) :
    req.expirationTime = 0 ∧ req.value = 0 ∧ req.revocable = rec.revocable ∧
    (env.includeRefUid = false → req.refUID = zeroHash) := by
  by_cases hpre : safePreconditionsMet env s
  case neg => simp [createSafeAttestationsTransaction, hpre] at hp
  case pos =>
    rcases hs : s.schema with _ | schema <;>
      rcases he : s.schemaEncoder with _ | enc <;>
      cases hct : env.createTxFails <;>
      cases hsf : env.signFails <;>
      cases hpf : env.proposeFails <;>
      simp [createSafeAttestationsTransaction, hpre, hs, he, hrec,
        hct, hsf, hpf] at hp
    subst hp
    simp only [] at hreq
    obtain ⟨row, hmem, hinc, hmk⟩ := mem_buildRequestData hreq
    subst hmk
    refine ⟨rfl, rfl, rfl, ?_⟩
    intro h
    simp [mkRequestData, h]

/-- Concrete instance of claim C7: the single request of the one-row batch
proposed from the loaded state. -/
theorem request_constant_fields_witness :
    exampleProposalReq.expirationTime = 0 ∧ exampleProposalReq.value = 0 ∧
    exampleProposalReq.revocable
      = (⟨"uint256 value", true⟩ : SchemaRecord).revocable ∧
    (exampleSafeEnv.includeRefUid = false →
      exampleProposalReq.refUID = zeroHash) :=
  request_constant_fields exampleSafeEnv loadedState
    ⟨"uint256 value", true⟩ rfl exampleProposal (by decide)
    exampleProposalReq (by decide)

/-- Claim C9 (confirmed): every direct-mode run writes the transaction
status only along `creating → attesting → wait_uid → success`, except that
a failure at any stage moves it to `error`; the status trace of any run is
one of the five conforming sequences and nothing else. -/
theorem direct_status_transitions (env : DirectEnv) (s : EasState) :
    traceOk (createAttestations env s).trace = true ∧
    (createAttestations env s).trace ∈
      [[TxStatus.error],
       [TxStatus.creating, TxStatus.error],
       [TxStatus.creating, TxStatus.attesting, TxStatus.error],
       [TxStatus.creating, TxStatus.attesting, TxStatus.wait_uid,
        TxStatus.error],
       [TxStatus.creating, TxStatus.attesting, TxStatus.wait_uid,
        TxStatus.success]] := by
  have hmem : (createAttestations env s).trace ∈
      [[TxStatus.error],
       [TxStatus.creating, TxStatus.error],
       [TxStatus.creating, TxStatus.attesting, TxStatus.error],
       [TxStatus.creating, TxStatus.attesting, TxStatus.wait_uid,
        TxStatus.error],
       [TxStatus.creating, TxStatus.attesting, TxStatus.wait_uid,
        TxStatus.success]] := by
    simp only [createSafeAttestationsTransaction, createAttestations]
    repeat' split
    all_goals simp
  refine ⟨?_, hmem⟩
  simp only [List.mem_cons, List.not_mem_nil, or_false] at hmem
  rcases hmem with h | h | h | h | h <;> rw [h] <;> rfl

/-- Claim C10 (confirmed): when the fetched schema record's revocable flag
is `false`, both submission operations fail with the missing-precondition
error before parsing the CSV or building any request; only `revocable =
true` schemas can be submitted. -/
theorem nonrevocable_schema_rejected (env : SafeEnv) (denv : DirectEnv)
    (s : EasState) (rec : SchemaRecord) (hrec : s.schemaRecord = some rec)
    (hrev : rec.revocable = false) :
    createSafeAttestationsTransaction env s
      = ⟨{ s with
           safeTransactionState := some (SafeTxState.error safePrecondMsg) },
         none, []⟩ ∧
    createAttestations denv s
      = ⟨{ s with
           transactionStatus := some TxStatus.error,
           transactionError := some directPrecondMsg },
         none, [], [TxStatus.error]⟩ := by
  have hflag : revocableFlag s = false := by simp [revocableFlag, hrec, hrev]
  have h1 : safePreconditionsMet env s = false := by
    simp [safePreconditionsMet, hflag]
  have h2 : directPreconditionsMet denv s = false := by
    simp [directPreconditionsMet, hflag]
  exact ⟨by simp [createSafeAttestationsTransaction, h1],
         by simp [createAttestations, h2]⟩

/-- Concrete instance of claim C10: the non-revocable loaded state is
rejected by both operations with the precondition error. -/
theorem nonrevocable_schema_rejected_witness :
    createSafeAttestationsTransaction exampleSafeEnv nonRevocableState
      = ⟨{ nonRevocableState with
           safeTransactionState := some (SafeTxState.error safePrecondMsg) },
         none, []⟩ ∧
    createAttestations exampleDirectEnv nonRevocableState
      = ⟨{ nonRevocableState with
           transactionStatus := some TxStatus.error,
           transactionError := some directPrecondMsg },
         none, [], [TxStatus.error]⟩ :=
  nonrevocable_schema_rejected exampleSafeEnv exampleDirectEnv
    nonRevocableState ⟨"uint256 value", false⟩ rfl rfl

/-- Claim C5 (confirmed): whether the fire-and-forget analytics emission
reaches the sink never changes the transaction outcome: in both submission
modes the run reaches the same final state, the same proposed/submitted
payload and (for the direct mode) the same status trace regardless of the
emission outcome; only the delivered-events log differs. -/
theorem analytics_failure_preserves_outcome (env : SafeEnv)
    (denv : DirectEnv) (s : EasState) (b b' : Bool) :
    ((createSafeAttestationsTransaction { env with emissionSucceeds := b } s).state
        = (createSafeAttestationsTransaction { env with emissionSucceeds := b' } s).state ∧
      (createSafeAttestationsTransaction { env with emissionSucceeds := b } s).proposal
        = (createSafeAttestationsTransaction { env with emissionSucceeds := b' } s).proposal) ∧
    ((createAttestations { denv with emissionSucceeds := b } s).state
        = (createAttestations { denv with emissionSucceeds := b' } s).state ∧
      (createAttestations { denv with emissionSucceeds := b } s).submitted
        = (createAttestations { denv with emissionSucceeds := b' } s).submitted ∧
      (createAttestations { denv with emissionSucceeds := b } s).trace
        = (createAttestations { denv with emissionSucceeds := b' } s).trace) := by
  obtain ⟨e1, e2, e3, e4, e5, e6, e7, e8, e9, e10, e11, e12, e13, e14, e15,
    e16, e17⟩ := env
  obtain ⟨f1, f2, f3, f4, f5, f6, f7, f8, f9, f10, f11, f12, f13, f14⟩ := denv
  refine ⟨⟨?_, ?_⟩, ?_, ?_, ?_⟩ <;>
    · simp only [createSafeAttestationsTransaction, createAttestations,
        safePreconditionsMet, directPreconditionsMet]
      repeat' split
      all_goals rfl

end AttestFest
